import Mathlib

/-!
Verification of `src/scripts/gas-report.py` (EspressoSystems/cape).

The script is a linear brownie run: deploy the `TestRecordsMerkleTree` mock
contract at depth 20 funded by `accounts[0]`, seed its root and leaf count
through `testSetRootAndNumLeaves`, submit one `testUpdateRecordsMerkleTree`
transaction, then print the transaction's info summary, read its status
attribute and print its call trace.

The embedding models the external execution environment (brownie's
deployment and call facilities, the pre-funded test accounts, the debugging
RPC) as an oracle `Env` giving the response to each request, and the script
as a function `main : Env → RunResult` recording, in program order, every
externally visible operation the script issues, the text blocks printed to
standard output, and the error (an uncaught Python exception) that
terminated the run, if any.  Every request is recorded before the
environment's response is examined, and an `Except.error` response aborts
the run at that point, exactly as an uncaught exception would.
-/

namespace GasReport

/-- Contract handles returned by the deployment facility are opaque
identifiers. -/
abbrev Contract := Nat

/-- Transaction-result handles returned by the call facility are opaque
identifiers; their attributes (status, printable info, trace) are read
through the environment. -/
abbrev TxHandle := Nat

/-- One externally visible operation issued by the script, in program order:
the contract deployment, the two contract calls (with their arguments and
the index of the funding account), and the three accesses to the update
transaction's result object (`tx.info()`, `tx.status`, `tx.call_trace()`). -/
inductive Action where
  | deploy (depth : Nat) (sender : Nat)
  | callSetRootAndNumLeaves (root : Nat) (numLeaves : Nat) (sender : Nat)
  | callUpdateRecordsMerkleTree (frontier : List Nat) (elements : List Nat) (sender : Nat)
  | txInfo (tx : TxHandle)
  | txStatusRead (tx : TxHandle)
  | txCallTrace (tx : TxHandle)
  deriving DecidableEq

/-- The external execution environment.  Each field gives the environment's
response to one kind of request; `Except.error` covers every failure mode
that surfaces as a raised exception in the script (deployment failure,
reverted call, RPC connectivity failure while producing info or trace
output).  `txStatus` is the pure `status` attribute of a transaction-result
object; `infoResult` and `traceResult` return the text block the
environment prints for `tx.info()` and `tx.call_trace()`. -/
structure Env where
  deployResult : Except String Contract
  seedResult : Contract → Except String TxHandle
  updateResult : Contract → Except String TxHandle
  txStatus : TxHandle → Bool
  infoResult : TxHandle → Except String String
  traceResult : TxHandle → Except String String

/-- `tree_depth = 20` from the script. -/
def tree_depth : Nat := 20

/-- `initial_root_value` from the script. -/
def initial_root_value : Nat :=
  16338819200219295738128869281163133642735762710891814031809540606861827401155

/-- `initial_num_of_leaves = 1` from the script. -/
def initial_num_of_leaves : Nat := 1

/-- `leaf_value` from the script. -/
def leaf_value : Nat :=
  17101599813294219906421080963940202236242422543188383858545041456174912634953

/-- `flatten_frontier = [leaf_value] + [0] * 60` from the script. -/
def flatten_frontier : List Nat := [leaf_value] ++ List.replicate 60 0

/-- `elems = [1, 2, 3, 4, 5]` from the script. -/
def elems : List Nat := [1, 2, 3, 4, 5]

/-- The index of the funding identity `accounts[0]` used in every
`{"from": accounts[0]}` argument of the script. -/
def account0 : Nat := 0

/-- Observable outcome of one run of the script: the external operations it
issued in order, the text blocks printed to standard output in order, and
the error that terminated the run, if any. -/
structure RunResult where
  actions : List Action
  output : List String
  error : Option String
  deriving DecidableEq

/-- Shallow embedding of `main` in `src/scripts/gas-report.py`: deploy the
mock contract at `tree_depth` from `accounts[0]`, call
`testSetRootAndNumLeaves(initial_root_value, initial_num_of_leaves)` (the
returned receipt is discarded, as in the source), call
`testUpdateRecordsMerkleTree(flatten_frontier, elems)` binding the result to
`tx`, then `tx.info()`, `tx.status` (read and discarded) and
`tx.call_trace()`. -/
def main (env : Env) : RunResult :=
  let acts0 := [Action.deploy tree_depth account0]
  match env.deployResult with
  | .error e => ⟨acts0, [], some e⟩
  | .ok mock_contract =>
    let acts1 := acts0 ++
      [Action.callSetRootAndNumLeaves initial_root_value initial_num_of_leaves account0]
    match env.seedResult mock_contract with
    | .error e => ⟨acts1, [], some e⟩
    | .ok _ =>
      let acts2 := acts1 ++ [Action.callUpdateRecordsMerkleTree flatten_frontier elems account0]
      match env.updateResult mock_contract with
      | .error e => ⟨acts2, [], some e⟩
      | .ok tx =>
        let acts3 := acts2 ++ [Action.txInfo tx]
        match env.infoResult tx with
        | .error e => ⟨acts3, [], some e⟩
        | .ok infoText =>
          let acts4 := acts3 ++ [Action.txStatusRead tx]
          let _status := env.txStatus tx
          let acts5 := acts4 ++ [Action.txCallTrace tx]
          match env.traceResult tx with
          | .error e => ⟨acts5, [infoText], some e⟩
          | .ok traceText => ⟨acts5, [infoText, traceText], none⟩

/-- The three externally visible steps of the scenario, used to state the
ordering claim. -/
inductive Step where
  | deployStep
  | seedStep
  | updateStep
  deriving DecidableEq

/-- Classify an action as one of the three scenario steps; result-object
accesses are not steps. -/
def Action.toStep? : Action → Option Step
  | .deploy _ _ => some Step.deployStep
  | .callSetRootAndNumLeaves _ _ _ => some Step.seedStep
  | .callUpdateRecordsMerkleTree _ _ _ => some Step.updateStep
  | _ => none

/-- The funding account of an action, when it is a transaction-submitting
request (deployment or contract call). -/
def Action.sender? : Action → Option Nat
  | .deploy _ s => some s
  | .callSetRootAndNumLeaves _ _ s => some s
  | .callUpdateRecordsMerkleTree _ _ s => some s
  | _ => none

/-- Brownie raises `VirtualMachineError` on a reverted transaction instead
of returning a receipt, so any call the environment answers with `Except.ok`
yields a receipt whose status attribute is success. -/
def Env.raisesOnRevert (env : Env) : Prop :=
  (∀ c t, env.seedResult c = .ok t → env.txStatus t = true) ∧
  (∀ c t, env.updateResult c = .ok t → env.txStatus t = true)

/-- The environment with the transaction status attribute replaced and all
other responses unchanged. -/
def Env.withStatus (env : Env) (st : TxHandle → Bool) : Env :=
  ⟨env.deployResult, env.seedResult, env.updateResult, st,
    env.infoResult, env.traceResult⟩

/-- The environment with the seeding call's result object replaced by `t`
whenever that call succeeds; failures and all other responses unchanged. -/
def Env.withSeedReceipt (env : Env) (t : TxHandle) : Env :=
  ⟨env.deployResult, fun c => (env.seedResult c).map (fun _ => t),
    env.updateResult, env.txStatus, env.infoResult, env.traceResult⟩

/-- Modelled from the spec: the deployed contract's configured frontier
capacity, derived from the tree depth.  The contract source
(`TestRecordsMerkleTree` over `RecordsMerkleTree.sol`) is not part of this
snapshot; the spec fixes only that the capacity is depth-derived and that at
depth 20 the script's 61 entries (one real value followed by 60 zeros) fill
it exactly, matching a ternary-tree frontier of `3 * depth + 1` slots. -/
def frontierCapacity (depth : Nat) : Nat := 3 * depth + 1

/-- The deployment request the script issues:
`TestRecordsMerkleTree.deploy(tree_depth, {"from": accounts[0]})`. -/
def deployAct : Action := Action.deploy tree_depth account0

/-- The seeding call the script issues:
`testSetRootAndNumLeaves(initial_root_value, initial_num_of_leaves)` funded
by `accounts[0]`. -/
def seedAct : Action :=
  Action.callSetRootAndNumLeaves initial_root_value initial_num_of_leaves account0

/-- The update call the script issues:
`testUpdateRecordsMerkleTree(flatten_frontier, elems)` funded by
`accounts[0]`. -/
def updateAct : Action :=
  Action.callUpdateRecordsMerkleTree flatten_frontier elems account0

/-- An environment in which every request succeeds, used as a concrete
witness input. -/
def envAllOk : Env :=
  ⟨.ok 7, fun _ => .ok 1, fun _ => .ok 2, fun _ => true,
    fun _ => .ok "gas info", fun _ => .ok "call trace"⟩

/-- An environment whose deployment request fails, used as a concrete
witness input. -/
def envDeployFail : Env :=
  ⟨.error "deploy failed", fun _ => .ok 1, fun _ => .ok 2, fun _ => true,
    fun _ => .ok "gas info", fun _ => .ok "call trace"⟩

/-- An environment in which everything succeeds except trace retrieval,
modelling the `debug_traceTransaction` RPC failure recorded in the script's
FIXME comment; used as a concrete witness input. -/
def envTraceFail : Env :=
  ⟨.ok 7, fun _ => .ok 1, fun _ => .ok 2, fun _ => true,
    fun _ => .ok "gas info",
    fun _ => .error "RPCRequestError: ConnectionError during debug_traceTransaction"⟩

/-- Claim C1: in every run of `main` the externally visible steps occur in
the strict order deploy, then seed (`testSetRootAndNumLeaves`), then update
(`testUpdateRecordsMerkleTree`): the sequence of step actions a run issues
is always an initial segment of that three-step order, so the update call is
issued only after the seeding call has returned, never before it, and the
single-threaded run model issues no two steps concurrently. -/
theorem deploy_seed_update_strict_order (env : Env) :
    (main env).actions.filterMap Action.toStep? = [Step.deployStep] ∨
    (main env).actions.filterMap Action.toStep? = [Step.deployStep, Step.seedStep] ∨
    (main env).actions.filterMap Action.toStep? =
      [Step.deployStep, Step.seedStep, Step.updateStep] := by
  rcases env with ⟨dr, sr, ur, st, ir, tr⟩
  rcases dr with e | c
  · left; rfl
  · rcases h1 : sr c with e | t1
    · simp [main, h1, Action.toStep?]
    · rcases h2 : ur c with e | t2
      · simp [main, h1, h2, Action.toStep?]
      · rcases h3 : ir t2 with e | s1
        · simp [main, h1, h2, h3, Action.toStep?]
        · rcases h4 : tr t2 with e | s2
          · simp [main, h1, h2, h3, h4, Action.toStep?]
          · simp [main, h1, h2, h3, h4, Action.toStep?]

/-- Claim C6: the update transaction's status flag is read but never
branched on: replacing the status attribute the environment reports — in
particular flipping it between success and revert — leaves the run, its
issued operations, its printed output and its final error, entirely
unchanged. -/
theorem status_read_not_branched (env : Env) (st : TxHandle → Bool) :
    main (env.withStatus st) = main env := rfl

/-- Claim C10: the seeding transaction's result is discarded: replacing the
receipt the seeding call returns changes nothing about the run, and every
access to a transaction-result object (`tx.info()`, `tx.status`,
`tx.call_trace()`) targets the receipt returned by the update call, so all
diagnostic output derives solely from the update transaction's result. -/
theorem seed_receipt_discarded (env : Env) (t : TxHandle) :
    main (env.withSeedReceipt t) = main env ∧
    ∀ h, (Action.txInfo h ∈ (main env).actions ∨
          Action.txStatusRead h ∈ (main env).actions ∨
          Action.txCallTrace h ∈ (main env).actions) →
      ∃ c, env.deployResult = .ok c ∧ env.updateResult c = .ok h := by
  rcases env with ⟨dr, sr, ur, st, ir, tr⟩
  rcases dr with e | c
  · exact ⟨rfl, by intro h hmem; simp [main] at hmem⟩
  · constructor
    · show main ⟨.ok c, fun x => (sr x).map fun _ => t, ur, st, ir, tr⟩ = _
      rcases h1 : sr c with e | t1 <;>
        simp [main, h1, Except.map]
    · intro h hmem
      rcases h1 : sr c with e | t1
      · simp [main, h1] at hmem
      · rcases h2 : ur c with e2 | t2
        · simp [main, h1, h2] at hmem
        · refine ⟨c, rfl, ?_⟩
          show ur c = Except.ok h
          rw [h2]
          rcases h3 : ir t2 with e3 | s1
          · simp [main, h1, h2, h3] at hmem
            simp [hmem]
          · rcases h4 : tr t2 with e4 | s2 <;>
            · simp [main, h1, h2, h3, h4] at hmem
              simp [hmem]

/-- Witness for C10 at a fully successful environment: the receipt whose
info, status and trace are accessed is the update call's receipt. -/
theorem seed_receipt_discarded_witness :
    (Action.txInfo 2 ∈ (main envAllOk).actions ∨
     Action.txStatusRead 2 ∈ (main envAllOk).actions ∨
     Action.txCallTrace 2 ∈ (main envAllOk).actions) ∧
    ∃ c, envAllOk.deployResult = Except.ok c ∧ envAllOk.updateResult c = Except.ok 2 :=
  ⟨by decide, (seed_receipt_discarded envAllOk 0).2 2 (by decide)⟩

/-- Claim C2: whenever the update call is issued, the preceding seeding call
has already completed with status success: under the brownie semantics that
a reverted call raises instead of returning a receipt
(`Env.raisesOnRevert`), the presence of the update-call action in a run
implies the seeding call returned a receipt whose status attribute is
success, and the seeding action sits at position 1 of the run, strictly
before the update action at position 2. -/
theorem seed_success_before_update (env : Env) (hwf : env.raisesOnRevert)
    (f el : List Nat) (s : Nat)
    (hmem : Action.callUpdateRecordsMerkleTree f el s ∈ (main env).actions) :
    ∃ c t, env.deployResult = Except.ok c ∧ env.seedResult c = Except.ok t ∧
      env.txStatus t = true ∧
      (main env).actions[1]? =
        some (Action.callSetRootAndNumLeaves initial_root_value
          initial_num_of_leaves account0) ∧
      (main env).actions[2]? = some (Action.callUpdateRecordsMerkleTree f el s) := by
  rcases env with ⟨dr, sr, ur, st, ir, tr⟩
  rcases dr with e0 | c
  · simp [main] at hmem
  · rcases h1 : sr c with e1 | t1
    · simp [main, h1] at hmem
    · refine ⟨c, t1, rfl, h1, hwf.1 c t1 h1, ?_⟩
      rcases h2 : ur c with e2 | t2
      · simp [main, h1, h2] at hmem ⊢
        exact ⟨hmem.1.symm, hmem.2.1.symm, hmem.2.2.symm⟩
      · rcases h3 : ir t2 with e3 | s1
        · simp [main, h1, h2, h3] at hmem ⊢
          exact ⟨hmem.1.symm, hmem.2.1.symm, hmem.2.2.symm⟩
        · rcases h4 : tr t2 with e4 | s2 <;>
          · simp [main, h1, h2, h3, h4] at hmem ⊢
            exact ⟨hmem.1.symm, hmem.2.1.symm, hmem.2.2.symm⟩

/-- Witness for C2 at a fully successful environment satisfying the
brownie raise-on-revert semantics. -/
theorem seed_success_before_update_witness :
    (envAllOk.raisesOnRevert ∧
     Action.callUpdateRecordsMerkleTree flatten_frontier elems account0 ∈
       (main envAllOk).actions) ∧
    ∃ c t, envAllOk.deployResult = Except.ok c ∧
      envAllOk.seedResult c = Except.ok t ∧ envAllOk.txStatus t = true ∧
      (main envAllOk).actions[1]? =
        some (Action.callSetRootAndNumLeaves initial_root_value
          initial_num_of_leaves account0) ∧
      (main envAllOk).actions[2]? =
        some (Action.callUpdateRecordsMerkleTree flatten_frontier elems account0) :=
  ⟨⟨⟨fun _ _ _ => rfl, fun _ _ _ => rfl⟩, by decide⟩,
    seed_success_before_update envAllOk ⟨fun _ _ _ => rfl, fun _ _ _ => rfl⟩
      flatten_frontier elems account0 (by decide)⟩

/-- Claim C3: whenever `main` invokes the contract's update entrypoint, the
frontier argument is exactly the field element
17101599813294219906421080963940202236242422543188383858545041456174912634953
followed by 60 zeros — a list of length 61 — and the elements argument is
exactly `[1, 2, 3, 4, 5]`. -/
theorem update_call_args_exact :
    flatten_frontier =
      17101599813294219906421080963940202236242422543188383858545041456174912634953 ::
        List.replicate 60 0 ∧
    flatten_frontier.length = 61 ∧
    elems = [1, 2, 3, 4, 5] ∧
    ∀ env f el s, Action.callUpdateRecordsMerkleTree f el s ∈ (main env).actions →
      f = flatten_frontier ∧ el = elems := by
  refine ⟨rfl, by decide, rfl, ?_⟩
  intro env f el s hmem
  rcases env with ⟨dr, sr, ur, st, ir, tr⟩
  rcases dr with e0 | c
  · simp [main] at hmem
  · rcases h1 : sr c with e1 | t1
    · simp [main, h1] at hmem
    · rcases h2 : ur c with e2 | t2
      · simp [main, h1, h2] at hmem
        exact ⟨hmem.1, hmem.2.1⟩
      · rcases h3 : ir t2 with e3 | s1
        · simp [main, h1, h2, h3] at hmem
          exact ⟨hmem.1, hmem.2.1⟩
        · rcases h4 : tr t2 with e4 | s2 <;>
          · simp [main, h1, h2, h3, h4] at hmem
            exact ⟨hmem.1, hmem.2.1⟩

/-- Witness for C3: the update-call action issued under a fully successful
environment carries exactly the scripted frontier and elements. -/
theorem update_call_args_exact_witness :
    (Action.callUpdateRecordsMerkleTree flatten_frontier elems account0 ∈
      (main envAllOk).actions) ∧
    flatten_frontier = flatten_frontier ∧ elems = elems :=
  ⟨by decide,
    (update_call_args_exact.2.2.2 envAllOk flatten_frontier elems account0
      (by decide)).1 ▸ ⟨rfl, rfl⟩⟩

/-- Every run's action list takes one of five shapes, each an extension of
the previous one: the run is cut short exactly where the first failing
request sits.  Helper lemma for the argument and funding claims. -/
theorem main_actions_shape (env : Env) :
    ∃ t : TxHandle,
      (main env).actions = [deployAct] ∨
      (main env).actions = [deployAct, seedAct] ∨
      (main env).actions = [deployAct, seedAct, updateAct] ∨
      (main env).actions = [deployAct, seedAct, updateAct, Action.txInfo t] ∨
      (main env).actions = [deployAct, seedAct, updateAct, Action.txInfo t,
        Action.txStatusRead t, Action.txCallTrace t] := by
  rcases env with ⟨dr, sr, ur, st, ir, tr⟩
  rcases dr with e0 | c
  · exact ⟨0, Or.inl rfl⟩
  · rcases h1 : sr c with e1 | t1
    · exact ⟨0, Or.inr (Or.inl (by simp [main, h1, deployAct, seedAct]))⟩
    · rcases h2 : ur c with e2 | t2
      · exact ⟨0, Or.inr (Or.inr (Or.inl
          (by simp [main, h1, h2, deployAct, seedAct, updateAct])))⟩
      · rcases h3 : ir t2 with e3 | s1
        · exact ⟨t2, Or.inr (Or.inr (Or.inr (Or.inl
            (by simp [main, h1, h2, h3, deployAct, seedAct, updateAct]))))⟩
        · rcases h4 : tr t2 with e4 | s2
          · exact ⟨t2, Or.inr (Or.inr (Or.inr (Or.inr
              (by simp [main, h1, h2, h3, h4, deployAct, seedAct, updateAct]))))⟩
          · exact ⟨t2, Or.inr (Or.inr (Or.inr (Or.inr
              (by simp [main, h1, h2, h3, h4, deployAct, seedAct, updateAct]))))⟩

/-- Claim C4: the script deploys the contract with tree depth exactly 20
and calls the privileged seeding entrypoint with root exactly
16338819200219295738128869281163133642735762710891814031809540606861827401155
and leaf count exactly 1; the deployment is unconditionally the run's first
request and, whenever deployment returns a handle, the seeding call is the
very next request — no local validation of the arguments is interposed. -/
theorem deploy_and_seed_args_no_local_validation (env : Env) :
    (main env).actions[0]? = some (Action.deploy 20 account0) ∧
    (∀ d s, Action.deploy d s ∈ (main env).actions → d = 20 ∧ s = account0) ∧
    (∀ r n s, Action.callSetRootAndNumLeaves r n s ∈ (main env).actions →
      r = 16338819200219295738128869281163133642735762710891814031809540606861827401155 ∧
      n = 1 ∧ s = account0) ∧
    (∀ c, env.deployResult = Except.ok c →
      (main env).actions[1]? = some (Action.callSetRootAndNumLeaves
        initial_root_value initial_num_of_leaves account0)) := by
  obtain ⟨t, hshape⟩ := main_actions_shape env
  refine ⟨?_, ?_, ?_, ?_⟩
  · rcases hshape with h | h | h | h | h <;> rw [h] <;> rfl
  · intro d s hmem
    rcases hshape with h | h | h | h | h <;> rw [h] at hmem <;>
      simp [deployAct, seedAct, updateAct, tree_depth, account0] at hmem <;>
      exact ⟨hmem.1, hmem.2⟩
  · intro r n s hmem
    rcases hshape with h | h | h | h | h <;> rw [h] at hmem <;>
      simp [deployAct, seedAct, updateAct, initial_root_value,
        initial_num_of_leaves, account0] at hmem <;>
      exact ⟨hmem.1, hmem.2.1, hmem.2.2⟩
  · intro c hc
    rcases env with ⟨dr, sr, ur, st, ir, tr⟩
    cases hc
    rcases h1 : sr c with e1 | t1
    · simp [main, h1]
    · rcases h2 : ur c with e2 | t2
      · simp [main, h1, h2]
      · rcases h3 : ir t2 with e3 | s1
        · simp [main, h1, h2, h3]
        · rcases h4 : tr t2 with e4 | s2 <;> simp [main, h1, h2, h3, h4]

/-- Witness for C4: the deployment heads the run and the seeding call
immediately follows it under a fully successful environment. -/
theorem deploy_and_seed_args_no_local_validation_witness :
    envAllOk.deployResult = Except.ok 7 ∧
    (main envAllOk).actions[0]? = some (Action.deploy 20 account0) ∧
    (main envAllOk).actions[1]? = some (Action.callSetRootAndNumLeaves
      initial_root_value initial_num_of_leaves account0) :=
  ⟨rfl, (deploy_and_seed_args_no_local_validation envAllOk).1,
    (deploy_and_seed_args_no_local_validation envAllOk).2.2.2 7 rfl⟩

/-- Claim C5: the frontier the script supplies has length equal to the
deployed contract's depth-derived frontier capacity: the scripted frontier
fills the capacity for `tree_depth` exactly, and in every run the depth of
the deployment action and the frontier of the update action satisfy the
capacity equation. -/
theorem frontier_length_matches_capacity :
    flatten_frontier.length = frontierCapacity tree_depth ∧
    ∀ env d s f el s', Action.deploy d s ∈ (main env).actions →
      Action.callUpdateRecordsMerkleTree f el s' ∈ (main env).actions →
      f.length = frontierCapacity d := by
  refine ⟨by decide, ?_⟩
  intro env d s f el s' hd hu
  obtain ⟨t, hshape⟩ := main_actions_shape env
  rcases hshape with h | h | h | h | h <;> rw [h] at hd hu <;>
    simp [deployAct, seedAct, updateAct] at hd hu <;>
    obtain ⟨rfl, -⟩ := hd <;> obtain ⟨rfl, -⟩ := hu <;> decide

/-- Witness for C5: the deployment and update actions of a fully successful
run satisfy the capacity equation. -/
theorem frontier_length_matches_capacity_witness :
    (Action.deploy tree_depth account0 ∈ (main envAllOk).actions ∧
     Action.callUpdateRecordsMerkleTree flatten_frontier elems account0 ∈
       (main envAllOk).actions) ∧
    flatten_frontier.length = frontierCapacity tree_depth :=
  ⟨⟨by decide, by decide⟩,
    frontier_length_matches_capacity.2 envAllOk tree_depth account0
      flatten_frontier elems account0 (by decide) (by decide)⟩

/-- Claim C7: the update transaction's info summary is printed strictly
before trace retrieval is attempted — the `tx.info()` action precedes the
`tx.call_trace()` action in every run containing the latter — and in a run
where everything succeeds except trace retrieval, the emitted output is
exactly the already-printed info summary: the trace failure does not
retract or alter it. -/
theorem info_printed_before_trace (env : Env) :
    (∀ h, Action.txCallTrace h ∈ (main env).actions →
      ∃ i j : Nat, i < j ∧ (main env).actions[i]? = some (Action.txInfo h) ∧
        (main env).actions[j]? = some (Action.txCallTrace h)) ∧
    (∀ c t u s m, env.deployResult = Except.ok c → env.seedResult c = Except.ok t →
      env.updateResult c = Except.ok u → env.infoResult u = Except.ok s →
      env.traceResult u = Except.error m →
      main env = ⟨[deployAct, seedAct, updateAct, Action.txInfo u,
        Action.txStatusRead u, Action.txCallTrace u], [s], some m⟩) := by
  constructor
  · intro h hmem
    obtain ⟨t, hshape⟩ := main_actions_shape env
    rcases hshape with hs | hs | hs | hs | hs <;> rw [hs] at hmem <;>
      simp [deployAct, seedAct, updateAct] at hmem
    subst hmem
    exact ⟨3, 5, by decide, by rw [hs]; rfl, by rw [hs]; rfl⟩
  · intro c t u s m hc ht hu hs hm
    rcases env with ⟨dr, sr, ur, st, ir, tr⟩
    cases hc
    simp_all [main, deployAct, seedAct, updateAct]

/-- Witness for C7: under the trace-failing environment of the script's
FIXME comment, the info summary is at position 3, the trace request at
position 5, and the output is exactly the info summary. -/
theorem info_printed_before_trace_witness :
    (Action.txCallTrace 2 ∈ (main envTraceFail).actions ∧
     main envTraceFail = ⟨[deployAct, seedAct, updateAct, Action.txInfo 2,
       Action.txStatusRead 2, Action.txCallTrace 2], ["gas info"],
       some "RPCRequestError: ConnectionError during debug_traceTransaction"⟩) ∧
    ∃ i j : Nat, i < j ∧ (main envTraceFail).actions[i]? = some (Action.txInfo 2) ∧
      (main envTraceFail).actions[j]? = some (Action.txCallTrace 2) :=
  ⟨⟨by decide,
      (info_printed_before_trace envTraceFail).2 7 1 2 "gas info"
        "RPCRequestError: ConnectionError during debug_traceTransaction"
        rfl rfl rfl rfl rfl⟩,
    (info_printed_before_trace envTraceFail).1 2 (by decide)⟩

/-- Claim C8: every failure raised by an external request propagates out of
`main` unmodified and terminates the run: whichever of the five requests
(deployment, seeding, update, info printing, trace retrieval) fails first,
the run's error is exactly the failing request's error, the action list
stops at that request, and the requests after it are never issued. -/
theorem failures_propagate_and_truncate (env : Env) (e : String) :
    (env.deployResult = Except.error e →
      main env = ⟨[deployAct], [], some e⟩) ∧
    (∀ c, env.deployResult = Except.ok c → env.seedResult c = Except.error e →
      main env = ⟨[deployAct, seedAct], [], some e⟩) ∧
    (∀ c t, env.deployResult = Except.ok c → env.seedResult c = Except.ok t →
      env.updateResult c = Except.error e →
      main env = ⟨[deployAct, seedAct, updateAct], [], some e⟩) ∧
    (∀ c t u, env.deployResult = Except.ok c → env.seedResult c = Except.ok t →
      env.updateResult c = Except.ok u → env.infoResult u = Except.error e →
      main env = ⟨[deployAct, seedAct, updateAct, Action.txInfo u], [], some e⟩) ∧
    (∀ c t u s, env.deployResult = Except.ok c → env.seedResult c = Except.ok t →
      env.updateResult c = Except.ok u → env.infoResult u = Except.ok s →
      env.traceResult u = Except.error e →
      main env = ⟨[deployAct, seedAct, updateAct, Action.txInfo u,
        Action.txStatusRead u, Action.txCallTrace u], [s], some e⟩) := by
  refine ⟨?_, ?_, ?_, ?_, ?_⟩
  · intro hd
    simp [main, hd, deployAct]
  · intro c hd hs
    simp [main, hd, hs, deployAct, seedAct]
  · intro c t hd hs hu
    simp [main, hd, hs, hu, deployAct, seedAct, updateAct]
  · intro c t u hd hs hu hi
    simp [main, hd, hs, hu, hi, deployAct, seedAct, updateAct]
  · intro c t u s hd hs hu hi hm
    simp [main, hd, hs, hu, hi, hm, deployAct, seedAct, updateAct]

/-- Witness for C8 at an environment whose deployment fails: the run stops
after the deployment request with that exact error. -/
theorem failures_propagate_and_truncate_witness :
    envDeployFail.deployResult = Except.error "deploy failed" ∧
    main envDeployFail = ⟨[deployAct], [], some "deploy failed"⟩ :=
  ⟨rfl, (failures_propagate_and_truncate envDeployFail "deploy failed").1 rfl⟩

/-- Claim C9: every transaction-submitting request of a run — the
deployment, the seeding call and the update call — is funded by the test
account at index 0; no action carrying a funding identity ever carries a
different one. -/
theorem funded_from_account0 (env : Env) :
    ∀ a, a ∈ (main env).actions → ∀ i, a.sender? = some i → i = account0 := by
  intro a hmem i hsend
  obtain ⟨t, hshape⟩ := main_actions_shape env
  rcases hshape with h | h | h | h | h <;> rw [h] at hmem <;>
    simp [deployAct, seedAct, updateAct] at hmem <;>
    rcases hmem with rfl | rfl | rfl | rfl | rfl | rfl <;>
    simp [Action.sender?] at hsend <;> omega

/-- Witness for C9: the deployment request of a fully successful run is
funded by account index 0. -/
theorem funded_from_account0_witness :
    (deployAct ∈ (main envAllOk).actions ∧ deployAct.sender? = some 0) ∧
    (0 : Nat) = account0 :=
  ⟨⟨by decide, rfl⟩, funded_from_account0 envAllOk deployAct (by decide) 0 rfl⟩

end GasReport
